import Mathlib

/-!
Verification of the quill logging library core against its specification.

The development shallowly embeds the three source files:
- `src/quill/src/utility/Os.cpp` (memory-mapped double buffer creation and
  destruction, capacity validation),
- `src/quill/src/detail/LogManager.cpp` (`flush`, `start_backend_worker`),
- `src/quill/test/integration_tests/JsonFileLoggingTest.cpp` (the json file
  logging scenario).

OS interactions (mmap, mkstemp, unlink, ftruncate, close) are modelled by an
explicit oracle of syscall outcomes plus a resource state that tracks open
file descriptors, live virtual mappings and temporary files on disk, so that
leak and cleanup properties become statements about the final resource state.

Virtual-memory aliasing is modelled at byte granularity: a mapping created
with MAP_SHARED writes through to the backing file (visible via every other
mapping of the same file offset), while a mapping created with MAP_PRIVATE
keeps a copy-on-write overlay private to that mapping (POSIX mmap semantics;
real copy-on-write is per page, but per-byte granularity is equivalent for
cross-mapping visibility, which is what the claims are about).
-/

namespace Quill

/-! ## Memory model for mmap aliasing (Os.cpp lines 301-330) -/

/-- A virtual mapping of a region of the backing file.
`shared = true` models MAP_SHARED, `shared = false` models MAP_PRIVATE
(the source passes `MAP_FIXED | MAP_PRIVATE` at Os.cpp lines 312 and 323). -/
structure Mapping where
  vstart : Nat
  len : Nat
  foff : Nat
  shared : Bool
deriving DecidableEq, Repr

/-- Memory state: the backing file's bytes, the list of live mappings, and
per-mapping private copy-on-write overlays (indexed by mapping position in
the list, then by offset relative to the mapping start). -/
structure MemState where
  file : Nat → Nat
  maps : List Mapping
  cow : Nat → Nat → Option Nat

/-- Does the mapping cover virtual address `a`? -/
def Mapping.covers (m : Mapping) (a : Nat) : Bool :=
  decide (m.vstart ≤ a) && decide (a < m.vstart + m.len)

/-- Find the first mapping covering address `a`, with its index. -/
def findMapping (ms : List Mapping) (a : Nat) : Option (Nat × Mapping) :=
  match ms with
  | [] => none
  | m :: rest =>
    if m.covers a then some (0, m)
    else (findMapping rest a).map (fun p => (p.1 + 1, p.2))

/-- Pointwise update of a function. -/
def updFn (f : Nat → Nat) (k v : Nat) : Nat → Nat :=
  fun x => if x = k then v else f x

/-- Pointwise update of a two-argument partial function. -/
def updFn2 (f : Nat → Nat → Option Nat) (i k v : Nat) : Nat → Nat → Option Nat :=
  fun i2 k2 => if i2 = i ∧ k2 = k then some v else f i2 k2

/-- Read the byte at virtual address `a`; `none` is a fault (unmapped). A
shared mapping reads the backing file; a private mapping reads its own
copy-on-write overlay first, falling back to the file. -/
def readByte (st : MemState) (a : Nat) : Option Nat :=
  match findMapping st.maps a with
  | none => none
  | some (i, m) =>
    let r := a - m.vstart
    if m.shared then some (st.file (m.foff + r))
    else some ((st.cow i r).getD (st.file (m.foff + r)))

/-- Write byte `b` at virtual address `a`. Through a shared mapping the
backing file is updated (so the write is visible through every mapping of
that file offset); through a private mapping only that mapping's
copy-on-write overlay is updated. -/
def writeByte (st : MemState) (a b : Nat) : Option MemState :=
  match findMapping st.maps a with
  | none => none
  | some (i, m) =>
    let r := a - m.vstart
    if m.shared then some { st with file := updFn st.file (m.foff + r) b }
    else some { st with cow := updFn2 st.cow i r b }

/-- Write byte `b` at `a1`, then read at `a2`. -/
def writeThenRead (st : MemState) (a1 b a2 : Nat) : Option Nat :=
  (writeByte st a1 b).bind (fun st2 => readByte st2 a2)

/-- The two mappings `create_memory_mapped_files` establishes on POSIX
(Os.cpp lines 311-323): `[base, base+C)` and `[base+C, base+2C)`, both of
file offset 0, both with `MAP_FIXED | MAP_PRIVATE` — hence `shared = false`. -/
def doubleMappedMaps (base capacity : Nat) : List Mapping :=
  [⟨base, capacity, 0, false⟩, ⟨base + capacity, capacity, 0, false⟩]

/-- The memory state right after a successful `create_memory_mapped_files`
on POSIX: the backing file is zero-filled by `ftruncate`, the two private
mappings are live and no copy-on-write page exists yet. -/
def createdMemState (base capacity : Nat) : MemState :=
  ⟨fun _ => 0, doubleMappedMaps base capacity, fun _ _ => none⟩

/-- Same construction with `MAP_SHARED` instead, which is what the double
mapping trick requires and what the specification describes. -/
def doubleMappedMapsShared (base capacity : Nat) : List Mapping :=
  [⟨base, capacity, 0, true⟩, ⟨base + capacity, capacity, 0, true⟩]

/-- Memory state of the shared variant of the construction. -/
def createdMemStateShared (base capacity : Nat) : MemState :=
  ⟨fun _ => 0, doubleMappedMapsShared base capacity, fun _ _ => none⟩

/-- The aliasing invariant claimed for the region: a byte written at
`base + o` is observed when reading `base + C + o`, for every `o < C` and
every written value. -/
def doubleMappingAliases (st : MemState) (base capacity : Nat) : Prop :=
  ∀ o < capacity, ∀ b,
    (writeThenRead st (base + o) b (base + capacity + o)) = some b

/-! ## Resource model of create_memory_mapped_files (POSIX branch,
Os.cpp lines 180-342) and destroy_memory_mapped_files (lines 344-359) -/

/-- Which temporary file location `mkstemp` used: `/dev/shm/quill-XXXXXX`
or `/tmp/quill-XXXXXX` (Os.cpp lines 265-266). -/
inductive TmpLoc where
  | shm
  | tmp
deriving DecidableEq, Repr

/-- Errors thrown by `create_memory_mapped_files`: `invalidCapacity` for the
two `std::runtime_error` capacity checks (lines 182-190), `sysError` for
every `std::system_error` thrown from the POSIX branch. -/
inductive CreateErr where
  | invalidCapacity
  | sysError
deriving DecidableEq, Repr

/-- Oracle of syscall outcomes for one run of the POSIX branch:
result of `mkstemp` on the shm path and on the tmp path, and whether
`unlink`, `ftruncate`, the three `mmap` calls and the final `close`
succeed. `reserveBase` is the address the anonymous PROT_NONE reservation
returns (`none` models MAP_FAILED). -/
structure SysOutcomes where
  shmFd : Option Nat
  tmpFd : Option Nat
  unlinkOk : Bool
  ftruncateOk : Bool
  reserveBase : Option Nat
  map1Ok : Bool
  map2Ok : Bool
  closeOk : Bool
deriving DecidableEq, Repr

/-- Saturating resource state: open file descriptors, live virtual mapping
regions as (base, length) pairs, temporary files still present on disk, and
which location the backing file was created in (if any). A failed `close`
still releases the descriptor (Linux semantics), so `close` always removes
the fd from `openFds`. -/
structure ResState where
  openFds : List Nat
  mapped : List (Nat × Nat)
  filesOnDisk : List TmpLoc
  chosenLoc : Option TmpLoc
deriving DecidableEq, Repr

/-- The resource state before `create_memory_mapped_files` runs. -/
def ResState.initial : ResState := ⟨[], [], [], none⟩

/-- Successful result of `create_memory_mapped_files`: the returned
`std::pair`. On POSIX the second member is `nullptr` (line 340), modelled
as `none`. -/
structure CreateOk where
  base : Nat
  handle : Option Nat
deriving DecidableEq, Repr

/-- Modelled from the spec: `is_pow_of_two` lives in
`quill/detail/CommonUtilities.h`, which is not part of the sources; the
specification only says the capacity must be "a power of two". -/
def is_pow_of_two (n : Nat) : Bool :=
  decide (n ≠ 0) && decide (n &&& (n - 1) = 0)

/-- The POSIX body of `create_memory_mapped_files` after the capacity
checks (Os.cpp lines 264-341), step by step in source order, threading the
resource state: `mkstemp` on shm falling back to tmp, `unlink`,
`ftruncate`, anonymous 2C reservation, the two MAP_FIXED mappings, and the
final `close`. The MAP_FIXED mappings replace parts of the 2C reservation,
so the live mapped region stays the single interval (base, 2*capacity)
until `munmap(address, 2*capacity)` removes it. -/
def createBody (capacity : Nat) (io : SysOutcomes) :
    Except CreateErr CreateOk × ResState :=
    -- int fd = mkstemp(shm_path); fall back to tmp_path on failure
    match (match io.shmFd, io.tmpFd with
           | some fd, _ => some (fd, TmpLoc.shm)
           | none, some fd => some (fd, TmpLoc.tmp)
           | none, none => none) with
    | none =>
      -- both mkstemp calls failed: no file was created, no fd is open
      (.error .sysError, ResState.initial)
    | some (fd, loc) =>
      let st1 : ResState := ⟨[fd], [], [loc], some loc⟩
      -- if (unlink(chosen_path) == -1) throw;  (fd NOT closed on this branch)
      if ¬ io.unlinkOk then
        (.error .sysError, st1)
      else
        let st2 : ResState := { st1 with filesOnDisk := [] }
        -- if (ftruncate(fd, capacity) == -1) { close(fd); throw; }
        if ¬ io.ftruncateOk then
          (.error .sysError, { st2 with openFds := [] })
        else
          -- address = mmap(nullptr, 2*capacity, PROT_NONE, ...)
          match io.reserveBase with
          | none =>
            -- MAP_FAILED: close(fd); throw;
            (.error .sysError, { st2 with openFds := [] })
          | some base =>
            let st3 : ResState := { st2 with mapped := [(base, 2 * capacity)] }
            -- first MAP_FIXED mapping; on mismatch munmap(address, 2*capacity); close(fd); throw;
            if ¬ io.map1Ok then
              (.error .sysError, { st3 with openFds := [], mapped := [] })
            else
            -- second MAP_FIXED mapping; same cleanup on mismatch
            if ¬ io.map2Ok then
              (.error .sysError, { st3 with openFds := [], mapped := [] })
            else
            -- if (close(fd) == -1) { munmap(address, 2*capacity); throw; }
            if ¬ io.closeOk then
              (.error .sysError, { st3 with openFds := [], mapped := [] })
            else
              (.ok ⟨base, none⟩, { st3 with openFds := [] })

/-- `create_memory_mapped_files` (Os.cpp lines 180-342): the two capacity
checks (lines 182-190) throw *invalid-capacity* before anything else runs;
then the POSIX body executes. -/
def create_memory_mapped_files (capacity pageSize : Nat) (io : SysOutcomes) :
    Except CreateErr CreateOk × ResState :=
  if ¬ is_pow_of_two capacity then
    (.error .invalidCapacity, ResState.initial)
  else if capacity % pageSize ≠ 0 then
    (.error .invalidCapacity, ResState.initial)
  else
    createBody capacity io

/-- `destroy_memory_mapped_files` (Os.cpp lines 344-359), POSIX branch:
no-op when the pair's first member is null, otherwise a single
`munmap(pointer_pair.first, 2 * capacity)`. Returns the new resource state
and the list of munmap calls issued. -/
def destroy_memory_mapped_files (first : Option Nat) (capacity : Nat)
    (st : ResState) : ResState × List (Nat × Nat) :=
  match first with
  | none => (st, [])
  | some base =>
    ({ st with mapped := st.mapped.filter (fun r => r ≠ (base, 2 * capacity)) },
     [(base, 2 * capacity)])

/-- The claim of C3, transcribed as a predicate over one run: every error
return reached after a backing file descriptor was obtained leaves no open
fd and no live mapping behind. -/
def cleansUpOnError (capacity pageSize : Nat) (io : SysOutcomes) : Prop :=
  ∀ e, (create_memory_mapped_files capacity pageSize io).1 = .error e →
    (io.shmFd.isSome ∨ io.tmpFd.isSome) →
    (create_memory_mapped_files capacity pageSize io).2.openFds = [] ∧
    (create_memory_mapped_files capacity pageSize io).2.mapped = []

/-- The last conjunct of the claim of C4, transcribed: after a successful
construction the backing file descriptor persists (is still open). -/
def fdPersistsOnSuccess (capacity pageSize : Nat) (io : SysOutcomes) : Prop :=
  ∀ r, (create_memory_mapped_files capacity pageSize io).1 = .ok r →
    (create_memory_mapped_files capacity pageSize io).2.openFds ≠ []

/-- A syscall oracle where everything succeeds. -/
def allOk : SysOutcomes :=
  ⟨some 5, none, true, true, some 1024, true, true, true⟩

/-- A run where `unlink` fails right after the shm `mkstemp` succeeded. -/
def unlinkFailOutcomes : SysOutcomes :=
  ⟨some 5, none, false, true, some 1024, true, true, true⟩

/-- A run where `ftruncate` fails after `unlink` succeeded. -/
def ftruncFailOutcomes : SysOutcomes :=
  ⟨some 5, none, true, false, some 1024, true, true, true⟩

/-- A run where the shm `mkstemp` fails and the tmp fallback succeeds. -/
def tmpFallbackOutcomes : SysOutcomes :=
  ⟨none, some 6, true, true, some 1024, true, true, true⟩

/-! ## LogManager::flush (LogManager.cpp lines 15-48) -/

/-- The queue-full policy from the configuration. `LogManager::flush` never
consults it: the push loop is unconditional. -/
inductive QueueFullPolicy where
  | block
  | drop
deriving DecidableEq, Repr

/-- Environment of one `flush` call: whether the backend worker is running
(`_backend_worker.is_running()`), the calling thread's id (whose
`local_thread_context()->spsc_queue()` receives the push), the outcome of
the k-th `try_emplace` attempt on that ring, and whether the backend
eventually processes the posted record and invokes its callback. -/
structure FlushEnv where
  backendRunning : Bool
  callerTid : Nat
  accepts : Nat → Bool
  backendProcesses : Bool

/-- Where a `flush` call can be observed, running it for a bounded number
of `try_emplace` attempts: returned immediately because the backend is not
running; still inside the do-while push loop; blocked in `cond.wait`
because the callback has not run; or returned after the callback set
`done` and signalled. -/
inductive FlushPhase where
  | notRunning
  | retrying
  | waiting
  | returned
deriving DecidableEq, Repr

/-- Observable outcome of one `flush` call: the phase reached, the ring the
command record was pushed to, how many command records were pushed, how
many `try_emplace` calls were made, and how many command records the loop
discarded. -/
structure FlushOutcome where
  phase : FlushPhase
  postedTo : Option Nat
  posted : Nat
  attempts : Nat
  dropped : Nat
deriving DecidableEq, Repr

/-- `LogManager::flush` under a bounded observation window of `fuel`
`try_emplace` attempts. Mirrors LogManager.cpp lines 15-48: early return
when the backend worker is not running; otherwise a do-while loop that
retries `try_emplace` of one `CommandRecord` (carrying the notify
callback) on the calling thread's own ring until it succeeds, then
`cond.wait(lock, done)` with no timeout, which finishes only once the
backend processes the record and the callback sets `done` and notifies.
The policy parameter mirrors the `_config` member the function never
reads. -/
def LogManager.flush (_policy : QueueFullPolicy) (env : FlushEnv) (fuel : Nat) :
    FlushOutcome :=
  if ¬ env.backendRunning then
    ⟨.notRunning, none, 0, 0, 0⟩
  else
    match (List.range fuel).find? env.accepts with
    | none =>
      -- every attempt in the window failed: still looping, nothing pushed,
      -- nothing discarded, not returned
      ⟨.retrying, none, 0, fuel, 0⟩
    | some k =>
      if env.backendProcesses then ⟨.returned, some env.callerTid, 1, k + 1, 0⟩
      else ⟨.waiting, some env.callerTid, 1, k + 1, 0⟩

/-- A flush environment: backend running, ring always accepting, backend
processing the record. -/
def flushEnvOk : FlushEnv := ⟨true, 7, fun _ => true, true⟩

/-- A flush environment with the backend worker not running. -/
def flushEnvOff : FlushEnv := ⟨false, 7, fun _ => true, true⟩

/-- A flush environment where the ring is full for the first three
`try_emplace` attempts and accepts from the fourth on. -/
def flushEnvSlowRing : FlushEnv := ⟨true, 7, fun k => decide (3 ≤ k), true⟩

/-- A flush environment where the backend never processes the record. -/
def flushEnvNoProcess : FlushEnv := ⟨true, 7, fun _ => true, false⟩

/-! ## Backend worker start (LogManager.cpp lines 50-51) -/

/-- Modelled from the spec: `BackendWorker::run` is declared in headers not
part of the sources. The spec says `backend_start(config)` is idempotent
and starts the (single) worker thread, so `run` spawns a worker only when
none is running. `workerCount` counts live worker threads. -/
structure BackendWorker where
  running : Bool
  workerCount : Nat
deriving DecidableEq, Repr

/-- The backend worker before any start: not running, no worker thread. -/
def BackendWorker.initial : BackendWorker := ⟨false, 0⟩

/-- Modelled from the spec: one `run` call; a no-op when already running,
otherwise spawns the single worker thread. -/
def BackendWorker.run (w : BackendWorker) : BackendWorker :=
  if w.running then w else ⟨true, w.workerCount + 1⟩

/-- `LogManager::start_backend_worker` (LogManager.cpp line 51): delegates
to `_backend_worker.run()`. -/
def LogManager.start_backend_worker (w : BackendWorker) : BackendWorker :=
  w.run

/-! ## The json_file_logging scenario (JsonFileLoggingTest.cpp lines 48-147)

The backend, frontend, sinks and formatting engine are not part of the
sources; the pipeline is modelled from the spec: each thread's ring holds
its 500 records in FIFO order, `flush_log` on every logger followed by
`Backend::stop` drains every ring completely, and each drained record is
rendered once into the json sink and once into the text sink. -/

/-- `number_of_messages` in the test (line 50). -/
def number_of_messages : Nat := 500

/-- `number_of_threads` in the test (line 51). -/
def number_of_threads : Nat := 6

/-- One log record as produced by thread `tid`'s `j`-th `LOG_INFO` call. -/
structure LogRec where
  tid : Nat
  msg : Nat
deriving DecidableEq, Repr

/-- Modelled from the spec: thread `t`'s ring after its loop, holding the
500 records in FIFO order. -/
def threadRing (t : Nat) : List LogRec :=
  (List.range number_of_messages).map (fun j => ⟨t, j⟩)

/-- Modelled from the spec: after `flush_log` on every logger and
`Backend::stop`, the backend has drained every thread's ring completely. -/
def drainedRecords : List LogRec :=
  ((List.range number_of_threads).map threadRing).flatten

/-- The expected json fields built by the test (lines 128-136):
`"logger":"logger_I","log_level":"INFO",...,"custom":"i: J, s: J"`. -/
def expectedJson (t j : Nat) : String :=
  "\"logger\":\"" ++ "logger_" ++ Nat.repr t ++
    "\",\"log_level\":\"INFO\",\"message\":\"Hello from thread \x7bthread_index\x7d this is message \x7bmessage_num\x7d [\x7bcustom\x7d]\"," ++
    "\"thread_index\":\"" ++ Nat.repr t ++
    "\",\"message_num\":\"" ++ Nat.repr j ++
    "\",\"custom\":\"i: " ++ Nat.repr j ++ ", s: " ++ Nat.repr j ++ "\""

/-- The expected text-sink substring built by the test (lines 142-143). -/
def expectedText (t j : Nat) : String :=
  "logger_" ++ Nat.repr t ++ "     Hello from thread " ++ Nat.repr t ++
    " this is message " ++ Nat.repr j

/-- Modelled from the spec: the json sink's line for one record — a json
object opening with the timestamp field, then the logger, level, message
template and named-argument fields of the record. -/
def jsonLine (r : LogRec) : String :=
  "\x7b\"timestamp\":\"\"," ++ expectedJson r.tid r.msg ++ "\x7d"

/-- The trailing rendered custom argument of a text-sink line. -/
def textTail (r : LogRec) : String :=
  " [i: " ++ Nat.repr r.msg ++ ", s: " ++ Nat.repr r.msg ++ "]"

/-- Modelled from the spec: the text sink's line for one record — the
formatted header (timestamp, thread id, location, level), then the logger
name and rendered message, then the trailing custom argument. -/
def textLine (r : LogRec) : String :=
  "00:00:00 [0] f:1 LOG_INFO " ++ expectedText r.tid r.msg ++ textTail r

/-- The json file's lines after the scenario. -/
def jsonFileLines : List String :=
  drainedRecords.map jsonLine

/-- The text file's lines after the scenario. -/
def textFileLines : List String :=
  drainedRecords.map textLine

/-- `quill::testing::file_contains`: some line of the file contains the
string as a substring. -/
def fileContains (file : List String) (s : String) : Prop :=
  ∃ l ∈ file, ∃ p q, l = p ++ s ++ q

/-! ## Helper lemmas -/

/-- For `o < C`, the first of the two double mappings covers `base + o`. -/
theorem findMapping_first (base capacity o : Nat) (ho : o < capacity) (sh : Bool) :
    findMapping [⟨base, capacity, 0, sh⟩, ⟨base + capacity, capacity, 0, sh⟩] (base + o) =
      some (0, ⟨base, capacity, 0, sh⟩) := by
  have h1 : (⟨base, capacity, 0, sh⟩ : Mapping).covers (base + o) = true := by
    simp [Mapping.covers] <;> omega
  simp [findMapping, h1]

/-- For `o < C`, address `base + C + o` resolves to the second of the two
double mappings. -/
theorem findMapping_second (base capacity o : Nat) (sh : Bool) (ho : o < capacity) :
    findMapping [⟨base, capacity, 0, sh⟩, ⟨base + capacity, capacity, 0, sh⟩]
      (base + capacity + o) = some (1, ⟨base + capacity, capacity, 0, sh⟩) := by
  have h1 : (⟨base, capacity, 0, sh⟩ : Mapping).covers (base + capacity + o) = false := by
    simp [Mapping.covers]
  have h2 : (⟨base + capacity, capacity, 0, sh⟩ : Mapping).covers (base + capacity + o) = true := by
    simp [Mapping.covers] <;> omega
  simp [findMapping, h1, h2]

/-- Had the two mappings been created MAP_SHARED, the aliasing invariant
would hold for every capacity, base and offset: this is what the double
mapping trick relies on. -/
theorem shared_double_mapping_aliases (base capacity : Nat) :
    doubleMappingAliases (createdMemStateShared base capacity) base capacity := by
  intro o ho b
  have hf := findMapping_first base capacity o ho true
  have hs := findMapping_second base capacity o true ho
  simp [writeThenRead, writeByte, readByte, createdMemStateShared,
    doubleMappedMapsShared, hf, hs, updFn, Nat.add_sub_cancel_left]

/-- No branch of the POSIX body throws the invalid-capacity error: that
error is exhausted by the two checks preceding it. -/
theorem createBody_no_invalidCapacity (capacity : Nat) (io : SysOutcomes) :
    (createBody capacity io).1 ≠ Except.error CreateErr.invalidCapacity := by
  obtain ⟨shm, tmp, u, ft, rb, m1, m2, cl⟩ := io
  cases shm <;> cases tmp <;> cases u <;> cases ft <;> cases rb <;>
    cases m1 <;> cases m2 <;> cases cl <;> simp [createBody]

/-- When `unlink` succeeds, every error branch of the POSIX body leaves no
open fd and no live mapping. -/
theorem createBody_cleanup (capacity : Nat) (io : SysOutcomes) (e : CreateErr)
    (hu : io.unlinkOk = true) (he : (createBody capacity io).1 = Except.error e) :
    (createBody capacity io).2.openFds = [] ∧ (createBody capacity io).2.mapped = [] := by
  obtain ⟨shm, tmp, u, ft, rb, m1, m2, cl⟩ := io
  cases shm <;> cases tmp <;> cases u <;> cases ft <;> cases rb <;>
    cases m1 <;> cases m2 <;> cases cl <;> simp_all [createBody, ResState.initial]

/-- On success the POSIX body leaves exactly the 2C mapping: the fd is
closed and the backing file is gone. -/
theorem createBody_success_state (capacity : Nat) (io : SysOutcomes) (r : CreateOk)
    (hr : (createBody capacity io).1 = Except.ok r) :
    (createBody capacity io).2.openFds = [] ∧
    (createBody capacity io).2.filesOnDisk = [] ∧
    (createBody capacity io).2.mapped = [(r.base, 2 * capacity)] := by
  obtain ⟨shm, tmp, u, ft, rb, m1, m2, cl⟩ := io
  cases shm <;> cases tmp <;> cases u <;> cases ft <;> cases rb <;>
    cases m1 <;> cases m2 <;> cases cl <;> simp_all [createBody, ResState.initial] <;>
    (subst hr; rfl)

/-- When both `mkstemp` calls fail, the body touches no resource. -/
theorem createBody_nofd_state (capacity : Nat) (io : SysOutcomes)
    (h1 : io.shmFd = none) (h2 : io.tmpFd = none) :
    (createBody capacity io).2 = ResState.initial := by
  obtain ⟨shm, tmp, u, ft, rb, m1, m2, cl⟩ := io
  simp_all [createBody]

/-- When the shm `mkstemp` succeeds, the shm location is chosen. -/
theorem createBody_chosen_shm (capacity : Nat) (io : SysOutcomes) (fd : Nat)
    (h1 : io.shmFd = some fd) :
    (createBody capacity io).2.chosenLoc = some TmpLoc.shm := by
  obtain ⟨shm, tmp, u, ft, rb, m1, m2, cl⟩ := io
  cases tmp <;> cases u <;> cases ft <;> cases rb <;>
    cases m1 <;> cases m2 <;> cases cl <;> simp_all [createBody]

/-- When the shm `mkstemp` fails and the tmp one succeeds, the tmp location
is chosen. -/
theorem createBody_chosen_tmp (capacity : Nat) (io : SysOutcomes) (fd : Nat)
    (h1 : io.shmFd = none) (h2 : io.tmpFd = some fd) :
    (createBody capacity io).2.chosenLoc = some TmpLoc.tmp := by
  obtain ⟨shm, tmp, u, ft, rb, m1, m2, cl⟩ := io
  cases u <;> cases ft <;> cases rb <;>
    cases m1 <;> cases m2 <;> cases cl <;> simp_all [createBody]

/-- When `unlink` succeeds the backing file is gone at the end of the body,
whatever happens afterwards: the unlink is the step right after the file's
creation. -/
theorem createBody_unlinked (capacity : Nat) (io : SysOutcomes)
    (hu : io.unlinkOk = true) :
    (createBody capacity io).2.filesOnDisk = [] := by
  obtain ⟨shm, tmp, u, ft, rb, m1, m2, cl⟩ := io
  cases shm <;> cases tmp <;> cases ft <;> cases rb <;>
    cases m1 <;> cases m2 <;> cases cl <;> simp_all [createBody, ResState.initial]

/-- The drain of the six rings yields 6 * 500 records. -/
theorem drainedRecords_length :
    drainedRecords.length = number_of_threads * number_of_messages := by
  simp [drainedRecords, threadRing, number_of_threads, number_of_messages,
    List.length_flatten, List.map_map, Function.comp_def]

/-- Every record (t, j) of the scenario is drained. -/
theorem mem_drainedRecords (t j : Nat) (ht : t < number_of_threads)
    (hj : j < number_of_messages) : (⟨t, j⟩ : LogRec) ∈ drainedRecords := by
  refine List.mem_flatten.mpr ⟨threadRing t,
    List.mem_map.mpr ⟨t, List.mem_range.mpr ht, rfl⟩, ?_⟩
  exact List.mem_map.mpr ⟨j, List.mem_range.mpr hj, rfl⟩

/-! ## Claim theorems -/

/-- C1: the claim asserts that a byte written at `base + o` is observed
when reading `base + C + o`. The source maps both regions with
`MAP_FIXED | MAP_PRIVATE` (Os.cpp lines 312 and 323), so each mapping has
its own copy-on-write overlay and writes do not alias: at capacity 4096,
writing byte 1 at offset 0 and reading at offset 4096 yields the file's
original byte 0, not 1, refuting the aliasing invariant. With MAP_SHARED
(see `shared_double_mapping_aliases`) the invariant would hold. -/
theorem private_double_mapping_breaks_aliasing :
    writeThenRead (createdMemState 0 4096) 0 1 4096 = some 0 ∧
    ¬ doubleMappingAliases (createdMemState 0 4096) 0 4096 := by
  constructor
  · decide
  · intro h
    have h0 := h 0 (by decide) 1
    revert h0
    decide

/-- C2: a capacity that is not a power of two or not a multiple of the page
size makes `create_memory_mapped_files` fail with the invalid-capacity
error while the resource state is still initial (no file, no fd, no
mapping); a capacity satisfying both checks never produces the
invalid-capacity error. -/
theorem create_capacity_validation (capacity pageSize : Nat) (io : SysOutcomes) :
    (¬ (is_pow_of_two capacity = true ∧ capacity % pageSize = 0) →
      create_memory_mapped_files capacity pageSize io =
        (Except.error CreateErr.invalidCapacity, ResState.initial)) ∧
    (is_pow_of_two capacity = true → capacity % pageSize = 0 →
      (create_memory_mapped_files capacity pageSize io).1 ≠
        Except.error CreateErr.invalidCapacity) := by
  constructor
  · intro h
    by_cases hp : is_pow_of_two capacity = true
    · have hm : ¬ capacity % pageSize = 0 := fun hm => h ⟨hp, hm⟩
      simp [create_memory_mapped_files, hp, hm]
    · simp [create_memory_mapped_files, hp]
  · intro hp hm
    simpa [create_memory_mapped_files, hp, hm] using
      createBody_no_invalidCapacity capacity io

/-- C2 witness: capacity 3 is rejected with the initial resource state;
capacity 4096 with page size 4096 passes the checks. -/
theorem create_capacity_validation_witness :
    create_memory_mapped_files 3 4096 allOk =
      (Except.error CreateErr.invalidCapacity, ResState.initial) ∧
    (create_memory_mapped_files 4096 4096 allOk).1 ≠
      Except.error CreateErr.invalidCapacity :=
  ⟨(create_capacity_validation 3 4096 allOk).1 (by decide),
   (create_capacity_validation 4096 4096 allOk).2 (by decide) (by decide)⟩

/-- C3 counterexample: in the run where `mkstemp` on shm returns fd 5 and
`unlink` fails, the function returns the error with fd 5 still open
(Os.cpp lines 290-293 throw without closing the fd), so the claim that
every post-fd error branch closes the descriptor is false. -/
theorem unlink_failure_leaks_fd : ¬ cleansUpOnError 4096 4096 unlinkFailOutcomes := by
  intro h
  have h2 := h CreateErr.sysError (by rfl) (Or.inl (by rfl))
  exact absurd h2.1 (by decide)

/-- C3 amended: every error branch of `create_memory_mapped_files` closes
the fd and unmaps every region it has mapped, except the unlink-failure
branch, which returns leaving the descriptor open; equivalently, cleanup
holds on every error run in which `unlink` succeeded (or no fd was ever
obtained). -/
theorem create_error_cleanup_except_unlink (capacity pageSize : Nat)
    (io : SysOutcomes) (e : CreateErr)
    (he : (create_memory_mapped_files capacity pageSize io).1 = Except.error e)
    (hu : io.unlinkOk = true ∨ (io.shmFd = none ∧ io.tmpFd = none)) :
    (create_memory_mapped_files capacity pageSize io).2.openFds = [] ∧
    (create_memory_mapped_files capacity pageSize io).2.mapped = [] := by
  by_cases hp : is_pow_of_two capacity = true
  · by_cases hm : capacity % pageSize = 0
    · simp only [create_memory_mapped_files, hp, hm] at he ⊢
      simp at he ⊢
      rcases hu with hu | ⟨h1, h2⟩
      · exact createBody_cleanup capacity io e hu he
      · rw [createBody_nofd_state capacity io h1 h2]
        exact ⟨rfl, rfl⟩
    · simp [create_memory_mapped_files, hp, hm, ResState.initial]
  · simp [create_memory_mapped_files, hp, ResState.initial]

/-- C3 witness: the ftruncate-failure branch (after a successful unlink)
closes the fd and leaves no mapping. -/
theorem create_error_cleanup_witness :
    (create_memory_mapped_files 4096 4096 ftruncFailOutcomes).2.openFds = [] ∧
    (create_memory_mapped_files 4096 4096 ftruncFailOutcomes).2.mapped = [] :=
  create_error_cleanup_except_unlink 4096 4096 ftruncFailOutcomes CreateErr.sysError
    (by rfl) (Or.inl (by rfl))

/-- C4 counterexample: on an all-successful run the construction succeeds
and no file descriptor is open afterwards — Os.cpp line 333 closes the fd
before returning — so "after a successful construction only the file
descriptor persists" is false. -/
theorem success_closes_fd : ¬ fdPersistsOnSuccess 4096 4096 allOk := by
  intro h
  exact (h ⟨1024, none⟩ (by rfl)) (by rfl)

/-- C4 amended: for a valid capacity the backing file is created first
under /dev/shm, falling back to /tmp only when the shm creation fails; it
is unlinked immediately after creation; and after a successful
construction the descriptor has been closed, so only the two mappings
persist — neither the file nor the descriptor. -/
theorem create_posix_backing_file_lifecycle (capacity pageSize : Nat) (io : SysOutcomes) :
    (is_pow_of_two capacity = true → capacity % pageSize = 0 →
      (∀ fd, io.shmFd = some fd →
        (create_memory_mapped_files capacity pageSize io).2.chosenLoc = some TmpLoc.shm) ∧
      (∀ fd, io.shmFd = none → io.tmpFd = some fd →
        (create_memory_mapped_files capacity pageSize io).2.chosenLoc = some TmpLoc.tmp) ∧
      (io.unlinkOk = true →
        (create_memory_mapped_files capacity pageSize io).2.filesOnDisk = [])) ∧
    (∀ r, (create_memory_mapped_files capacity pageSize io).1 = Except.ok r →
      (create_memory_mapped_files capacity pageSize io).2.openFds = [] ∧
      (create_memory_mapped_files capacity pageSize io).2.filesOnDisk = [] ∧
      (create_memory_mapped_files capacity pageSize io).2.mapped = [(r.base, 2 * capacity)]) := by
  constructor
  · intro hp hm
    simp only [create_memory_mapped_files, hp, hm]
    simp
    exact ⟨fun fd h => createBody_chosen_shm capacity io fd h,
           fun fd h1 h2 => createBody_chosen_tmp capacity io fd h1 h2,
           fun hu => createBody_unlinked capacity io hu⟩
  · intro r hr
    by_cases hp : is_pow_of_two capacity = true
    · by_cases hm : capacity % pageSize = 0
      · simp only [create_memory_mapped_files, hp, hm] at hr ⊢
        simp at hr ⊢
        exact createBody_success_state capacity io r hr
      · simp [create_memory_mapped_files, hp, hm] at hr
    · simp [create_memory_mapped_files, hp] at hr

/-- C4 witness: the tmp fallback is chosen when shm creation fails, and
the all-successful run ends with no open fd and exactly the 2C mapping. -/
theorem create_posix_backing_file_lifecycle_witness :
    (create_memory_mapped_files 4096 4096 tmpFallbackOutcomes).2.chosenLoc = some TmpLoc.tmp ∧
    (create_memory_mapped_files 4096 4096 allOk).2.openFds = [] ∧
    (create_memory_mapped_files 4096 4096 allOk).2.mapped = [(1024, 2 * 4096)] := by
  refine ⟨((create_posix_backing_file_lifecycle 4096 4096 tmpFallbackOutcomes).1
      (by decide) (by decide)).2.1 6 rfl rfl, ?_, ?_⟩
  · exact ((create_posix_backing_file_lifecycle 4096 4096 allOk).2 ⟨1024, none⟩ rfl).1
  · exact ((create_posix_backing_file_lifecycle 4096 4096 allOk).2 ⟨1024, none⟩ rfl).2.2

/-- C5: when the backend worker is running, `flush` returns exactly when
the command record was pushed and the backend processed it (running the
callback that sets `done` and signals); on return exactly one record was
posted, onto the calling thread's own ring; and there is no timeout: if
the backend never processes the record, `flush` never returns, for any
bound on the observation. -/
theorem flush_is_blocking_barrier (policy : QueueFullPolicy) (env : FlushEnv)
    (fuel : Nat) (hrun : env.backendRunning = true) :
    ((LogManager.flush policy env fuel).phase = FlushPhase.returned ↔
      env.backendProcesses = true ∧ ((List.range fuel).find? env.accepts).isSome = true) ∧
    ((LogManager.flush policy env fuel).phase = FlushPhase.returned →
      (LogManager.flush policy env fuel).posted = 1 ∧
      (LogManager.flush policy env fuel).postedTo = some env.callerTid) ∧
    (env.backendProcesses = false →
      (LogManager.flush policy env fuel).phase ≠ FlushPhase.returned) := by
  unfold LogManager.flush
  cases hfind : (List.range fuel).find? env.accepts <;>
    cases hB : env.backendProcesses <;> simp [hrun, hfind, hB]

/-- C5 witness: with the backend running, an accepting ring and a
processing backend, `flush` returns. -/
theorem flush_is_blocking_barrier_witness :
    (LogManager.flush QueueFullPolicy.block flushEnvOk 1).phase = FlushPhase.returned :=
  ((flush_is_blocking_barrier QueueFullPolicy.block flushEnvOk 1 rfl).1).mpr
    ⟨rfl, by decide⟩

/-- C8: when the backend worker is not running, `flush` returns immediately
(LogManager.cpp lines 17-21): nothing is posted, no attempt is made, no
wait happens and no flushing is triggered. -/
theorem flush_no_backend_returns_immediately (policy : QueueFullPolicy)
    (env : FlushEnv) (fuel : Nat) (h : env.backendRunning = false) :
    LogManager.flush policy env fuel = ⟨FlushPhase.notRunning, none, 0, 0, 0⟩ := by
  simp [LogManager.flush, h]

/-- C8 witness: the not-running outcome at a concrete environment. -/
theorem flush_no_backend_returns_immediately_witness :
    LogManager.flush QueueFullPolicy.drop flushEnvOff 5 =
      ⟨FlushPhase.notRunning, none, 0, 0, 0⟩ :=
  flush_no_backend_returns_immediately QueueFullPolicy.drop flushEnvOff 5 rfl

/-- C9: the flush command record is never dropped. The outcome of `flush`
is independent of the configured queue-full policy; no branch discards a
record; when the first successful `try_emplace` is attempt `k` the loop
pushes exactly one record after `k + 1` attempts; and while every attempt
fails the loop keeps retrying without returning or discarding. -/
theorem flush_push_retries_until_success (p q : QueueFullPolicy) (env : FlushEnv)
    (fuel k : Nat) :
    LogManager.flush p env fuel = LogManager.flush q env fuel ∧
    (LogManager.flush p env fuel).dropped = 0 ∧
    (env.backendRunning = true → (List.range fuel).find? env.accepts = some k →
      (LogManager.flush p env fuel).posted = 1 ∧
      (LogManager.flush p env fuel).attempts = k + 1) ∧
    (env.backendRunning = true → (List.range fuel).find? env.accepts = none →
      (LogManager.flush p env fuel).phase = FlushPhase.retrying ∧
      (LogManager.flush p env fuel).posted = 0 ∧
      (LogManager.flush p env fuel).attempts = fuel) := by
  refine ⟨rfl, ?_, ?_, ?_⟩
  · unfold LogManager.flush
    cases hr : env.backendRunning
    · simp [hr]
    · cases hfind : (List.range fuel).find? env.accepts <;>
        cases hB : env.backendProcesses <;> simp [hr, hfind, hB]
  · intro hrun hfind
    unfold LogManager.flush
    cases hB : env.backendProcesses <;> simp [hrun, hfind, hB]
  · intro hrun hfind
    unfold LogManager.flush
    simp [hrun, hfind]

/-- C9 witness: a ring that rejects the first three attempts delays the
flush command to the fourth attempt but the single record is pushed. -/
theorem flush_push_retries_until_success_witness :
    (LogManager.flush QueueFullPolicy.block flushEnvSlowRing 5).posted = 1 ∧
    (LogManager.flush QueueFullPolicy.block flushEnvSlowRing 5).attempts = 4 :=
  (flush_push_retries_until_success QueueFullPolicy.block QueueFullPolicy.drop
    flushEnvSlowRing 5 3).2.2.1 rfl (by decide)

/-- C7: `backend_start` is idempotent: starting twice equals starting once
on every worker state, and from the initial state one and two starts both
leave exactly one worker thread running. -/
theorem backend_start_idempotent (w : BackendWorker) :
    LogManager.start_backend_worker (LogManager.start_backend_worker w) =
      LogManager.start_backend_worker w ∧
    (LogManager.start_backend_worker
      (LogManager.start_backend_worker BackendWorker.initial)).workerCount = 1 ∧
    (LogManager.start_backend_worker BackendWorker.initial).workerCount = 1 := by
  refine ⟨?_, rfl, rfl⟩
  by_cases h : w.running = true <;>
    simp [LogManager.start_backend_worker, BackendWorker.run, h]

/-- C6: in the json_file_logging scenario both files hold exactly
6 * 500 = 3000 entries, and for every thread index t < 6 and message
number j < 500 the json file contains the expected json rendering and the
text file the expected text rendering of message (t, j). -/
theorem json_file_logging_scenario :
    jsonFileLines.length = number_of_threads * number_of_messages ∧
    textFileLines.length = number_of_threads * number_of_messages ∧
    (∀ t, t < number_of_threads → ∀ j, j < number_of_messages →
      fileContains jsonFileLines (expectedJson t j) ∧
      fileContains textFileLines (expectedText t j)) := by
  refine ⟨?_, ?_, ?_⟩
  · simpa [jsonFileLines] using drainedRecords_length
  · simpa [textFileLines] using drainedRecords_length
  · intro t ht j hj
    have hmem := mem_drainedRecords t j ht hj
    constructor
    · exact ⟨jsonLine ⟨t, j⟩, List.mem_map_of_mem _ hmem,
        "\x7b\"timestamp\":\"\",", "\x7d", rfl⟩
    · exact ⟨textLine ⟨t, j⟩, List.mem_map_of_mem _ hmem,
        "00:00:00 [0] f:1 LOG_INFO ", textTail ⟨t, j⟩, rfl⟩

/-- C6 witness: message (2, 3) is present in both files. -/
theorem json_file_logging_scenario_witness :
    fileContains jsonFileLines (expectedJson 2 3) ∧
    fileContains textFileLines (expectedText 2 3) :=
  json_file_logging_scenario.2.2 2 (by decide) 3 (by decide)

/-- C10: `destroy_memory_mapped_files` is a no-op on a null base pointer,
and on the pair returned by a successful `create_memory_mapped_files` it
issues exactly one `munmap` of the full 2C region, after which no mapping
of the double-mapped region remains. -/
theorem destroy_double_mapping (capacity pageSize : Nat) (io : SysOutcomes)
    (st : ResState) (r : CreateOk) :
    destroy_memory_mapped_files none capacity st = (st, []) ∧
    ((create_memory_mapped_files capacity pageSize io).1 = Except.ok r →
      (destroy_memory_mapped_files (some r.base) capacity
        (create_memory_mapped_files capacity pageSize io).2).2 = [(r.base, 2 * capacity)] ∧
      (destroy_memory_mapped_files (some r.base) capacity
        (create_memory_mapped_files capacity pageSize io).2).1.mapped = []) := by
  refine ⟨rfl, fun hr => ⟨rfl, ?_⟩⟩
  have hmapped : (create_memory_mapped_files capacity pageSize io).2.mapped =
      [(r.base, 2 * capacity)] := by
    by_cases hp : is_pow_of_two capacity = true
    · by_cases hm : capacity % pageSize = 0
      · simp only [create_memory_mapped_files, hp, hm] at hr ⊢
        simp at hr ⊢
        exact (createBody_success_state capacity io r hr).2.2
      · simp [create_memory_mapped_files, hp, hm] at hr
    · simp [create_memory_mapped_files, hp] at hr
  simp [destroy_memory_mapped_files, hmapped]

/-- C10 witness: on the all-successful creation at capacity 4096 the
destruction unmaps (1024, 8192) once, and the null case is a no-op. -/
theorem destroy_double_mapping_witness :
    destroy_memory_mapped_files none 4096 ResState.initial = (ResState.initial, []) ∧
    (destroy_memory_mapped_files (some 1024) 4096
      (create_memory_mapped_files 4096 4096 allOk).2).2 = [(1024, 2 * 4096)] ∧
    (destroy_memory_mapped_files (some 1024) 4096
      (create_memory_mapped_files 4096 4096 allOk).2).1.mapped = [] :=
  ⟨(destroy_double_mapping 4096 4096 allOk ResState.initial ⟨1024, none⟩).1,
   ((destroy_double_mapping 4096 4096 allOk ResState.initial ⟨1024, none⟩).2 rfl).1,
   ((destroy_double_mapping 4096 4096 allOk ResState.initial ⟨1024, none⟩).2 rfl).2⟩

end Quill
